import Mathlib

/-!
Verification of the design-token generation mixins of the its-saafe-login
repository (src/styles/mixins.scss, loaded globally from vite.config.js).

The mixins are pure build-time computations: a palette generator
(generate-palette), an overlay generator (generate-layouts-overlay), two
typographic generators (font-sizes, font-weights) and a spacing function
(scale).  Colors are embedded as rational RGB channel triples in the 0-255
scale; Sass's color.mix on opaque colors is linear interpolation weighted by
the first argument's weight, which we embed exactly over the rationals.
-/

namespace SaafeTokens

/-- An opaque RGB color: three channels on the 0-255 scale, as Sass stores
them.  Rational channels keep the mixing arithmetic exact. -/
structure Color where
  r : ℚ
  g : ℚ
  b : ℚ
deriving DecidableEq, Repr

/-- An RGBA color as produced by Sass's rgba(): RGB channels plus an alpha
in the 0-1 scale. -/
structure RGBA where
  r : ℚ
  g : ℚ
  b : ℚ
  a : ℚ
deriving DecidableEq, Repr

/-- The Sass literal white, #ffffff. -/
def white : Color := ⟨255, 255, 255⟩

/-- The Sass literal black, #000000. -/
def black : Color := ⟨0, 0, 0⟩

/-- Sass color.mix(c1, c2, w%) on opaque colors: each channel is the linear
interpolation w% of c1 plus (100-w)% of c2 (w is the weight of the FIRST
argument). -/
def mix (c1 c2 : Color) (w : ℚ) : Color :=
  { r := (c1.r * w + c2.r * (100 - w)) / 100
    g := (c1.g * w + c2.g * (100 - w)) / 100
    b := (c1.b * w + c2.b * (100 - w)) / 100 }

/-- The mixin generate-palette($base-color, $name: 'primary').  Emits the
nine custom properties --{name}-1 .. --{name}-9 in source order.  Source:

  $lightest: color.mix(white, $base-color, 95%);
  $lighter-4: color.mix(white, $base-color, 85%);
  $lighter-3: color.mix(white, $base-color, 80%);
  $lighter-2: color.mix(white, $base-color, 70%);
  $lighter-1: color.mix(white, $base-color, 50%);
  $base: $base-color;
  $darker-1: color.mix(black, $base-color, 30%);
  $darker-2: color.mix(black, $base-color, 60%);
  --#{$name}-7: #{color.mix($base, $darker-1, 50%)};

The default for $name in the source is "primary"; callers here pass it
explicitly. -/
def generatePalette (baseColor : Color) (name : String) : List (String × Color) :=
  let lightest := mix white baseColor 95
  let lighter4 := mix white baseColor 85
  let lighter3 := mix white baseColor 80
  let lighter2 := mix white baseColor 70
  let lighter1 := mix white baseColor 50
  let base := baseColor
  let darker1 := mix black baseColor 30
  let darker2 := mix black baseColor 60
  [ ("--" ++ name ++ "-1", lightest)
  , ("--" ++ name ++ "-2", lighter4)
  , ("--" ++ name ++ "-3", lighter3)
  , ("--" ++ name ++ "-4", lighter2)
  , ("--" ++ name ++ "-5", lighter1)
  , ("--" ++ name ++ "-6", base)
  , ("--" ++ name ++ "-7", mix base darker1 50)
  , ("--" ++ name ++ "-8", darker1)
  , ("--" ++ name ++ "-9", darker2) ]

/-- The mixin generate-layouts-overlay($base-color, $color-name).  Extracts
the base color's red, green and blue channels and emits four rgba custom
properties with alphas 0.1, 0.2, 0.4, 0.7 (written here as exact
rationals). -/
def generateLayoutsOverlay (baseColor : Color) (colorName : String) : List (String × RGBA) :=
  let baseR := baseColor.r
  let baseG := baseColor.g
  let baseB := baseColor.b
  let overlay1 : RGBA := ⟨baseR, baseG, baseB, 1/10⟩
  let overlay2 : RGBA := ⟨baseR, baseG, baseB, 2/10⟩
  let overlay4 : RGBA := ⟨baseR, baseG, baseB, 4/10⟩
  let overlay7 : RGBA := ⟨baseR, baseG, baseB, 7/10⟩
  [ ("--" ++ colorName ++ "-overlay-1", overlay1)
  , ("--" ++ colorName ++ "-overlay-2", overlay2)
  , ("--" ++ colorName ++ "-overlay-4", overlay4)
  , ("--" ++ colorName ++ "-overlay-7", overlay7) ]

/-- A utility class rule emitted by the typographic mixins: selector name,
font-size or font-weight value (in px resp. unitless), and the optional
text-transform declaration. -/
structure ClassRule where
  name : String
  value : ℚ
  textTransform : Option String
deriving DecidableEq, Repr

/-- The mixin font-sizes($prefix: 'font').  Emits eight utility class rules
.{prefix}-xl .. .{prefix}-tiny-caps (the last one also carrying
text-transform: uppercase) and eight custom properties --{prefix}-xl ..
--{prefix}-tiny-caps with the same px values.  The source default for the
prefix is "font"; callers here pass it explicitly. -/
def fontSizes (pfx : String) : List ClassRule × List (String × ℚ) :=
  ( [ ⟨"." ++ pfx ++ "-xl", 24, none⟩
    , ⟨"." ++ pfx ++ "-l", 20, none⟩
    , ⟨"." ++ pfx ++ "-m", 18, none⟩
    , ⟨"." ++ pfx ++ "-default", 16, none⟩
    , ⟨"." ++ pfx ++ "-sm", 14, none⟩
    , ⟨"." ++ pfx ++ "-xs", 12, none⟩
    , ⟨"." ++ pfx ++ "-tiny", 11, none⟩
    , ⟨"." ++ pfx ++ "-tiny-caps", 10, some "uppercase"⟩ ]
  , [ ("--" ++ pfx ++ "-xl", 24)
    , ("--" ++ pfx ++ "-l", 20)
    , ("--" ++ pfx ++ "-m", 18)
    , ("--" ++ pfx ++ "-default", 16)
    , ("--" ++ pfx ++ "-sm", 14)
    , ("--" ++ pfx ++ "-xs", 12)
    , ("--" ++ pfx ++ "-tiny", 11)
    , ("--" ++ pfx ++ "-tiny-caps", 10) ] )

/-- The mixin font-weights($prefix: 'font-weight').  Emits five utility
class rules .{prefix}-light .. .{prefix}-black and five custom properties
--{prefix}-light .. --{prefix}-black.  The source default for the prefix is
"font-weight"; callers here pass it explicitly. -/
def fontWeights (pfx : String) : List ClassRule × List (String × ℚ) :=
  ( [ ⟨"." ++ pfx ++ "-light", 300, none⟩
    , ⟨"." ++ pfx ++ "-regular", 400, none⟩
    , ⟨"." ++ pfx ++ "-semibold", 600, none⟩
    , ⟨"." ++ pfx ++ "-bold", 700, none⟩
    , ⟨"." ++ pfx ++ "-black", 800, none⟩ ]
  , [ ("--" ++ pfx ++ "-light", 300)
    , ("--" ++ pfx ++ "-regular", 400)
    , ("--" ++ pfx ++ "-semibold", 600)
    , ("--" ++ pfx ++ "-bold", 700)
    , ("--" ++ pfx ++ "-black", 800) ] )

/-- The function scale($multiple).  Source body, in full:

  $base: 8px;
  @return $base * $multiple;

The result is in px units; we return the numeric coefficient.  Note the
body performs NO validation: despite the doc comment's "@throws" clause,
every numeric input is multiplied by 8 and returned. -/
def scale (multiple : ℚ) : ℚ :=
  let base : ℚ := 8
  base * multiple

/-- Spec-side description of mixing: the color c mixed toward a target at
w% target, i.e. w% of the target plus (100-w)% of c.  Stated from the
spec's words to compare with the source's mix. -/
def mixedToward (c target : Color) (w : ℚ) : Color :=
  { r := (w * target.r + (100 - w) * c.r) / 100
    g := (w * target.g + (100 - w) * c.g) / 100
    b := (w * target.b + (100 - w) * c.b) / 100 }

/-- HSL lightness of a color, up to the positive constant factor 1/(2·255)
that Sass applies to express it as a percentage: the sum of the largest and
smallest RGB channels. -/
def lightness (c : Color) : ℚ :=
  max c.r (max c.g c.b) + min c.r (min c.g c.b)

end SaafeTokens

namespace SaafeTokens

/-- Claim C1: the claim says scale fails with an InvalidMultipleError on a
multiple that is neither an integer nor 0.5, such as 1.3, before computing
any result.  The source's own doc comment promises that error, but the
body has no validation at all: scale(1.3) returns 10.4px.  This theorem
evaluates the code at the failing input. -/
theorem scale_no_validation_at_1_3 : scale (13/10) = 52/5 := by
  norm_num [scale]

/-- Claim C4: for every multiple that is an integer or exactly 0.5, scale
returns 8 units times the multiple; in particular scale(3) = 24,
scale(0.5) = 4 and scale(2) = 16. -/
theorem scale_valid_multiples (m : ℚ) (_h : (∃ n : ℤ, m = (n : ℚ)) ∨ m = 1/2) :
    scale m = 8 * m ∧ scale 3 = 24 ∧ scale (1/2) = 4 ∧ scale 2 = 16 := by
  refine ⟨?_, ?_, ?_, ?_⟩ <;> norm_num [scale]

/-- Witness for C4: the hypothesis holds at the concrete multiple 3 and the
theorem yields scale 3 = 8 * 3 together with the three listed values. -/
theorem scale_valid_multiples_witness :
    scale 3 = 8 * 3 ∧ scale 3 = 24 ∧ scale (1/2) = 4 ∧ scale 2 = 16 :=
  scale_valid_multiples 3 (Or.inl ⟨3, by norm_num⟩)

/-- Claim C2: for every base color c and prefix p, generate-palette emits
exactly the nine tokens --p-1 .. --p-9, where tokens 1-4 are c mixed toward
white at 95%, 85%, 80%, 70% white, token 5 is c mixed 50% toward white,
token 6 is c itself, token 7 is c mixed 50% toward the value of token 8,
token 8 is c mixed 30% toward black and token 9 is c mixed 60% toward
black. -/
theorem generatePalette_spec (c : Color) (p : String) :
    generatePalette c p =
      [ ("--" ++ p ++ "-1", mixedToward c white 95)
      , ("--" ++ p ++ "-2", mixedToward c white 85)
      , ("--" ++ p ++ "-3", mixedToward c white 80)
      , ("--" ++ p ++ "-4", mixedToward c white 70)
      , ("--" ++ p ++ "-5", mixedToward c white 50)
      , ("--" ++ p ++ "-6", c)
      , ("--" ++ p ++ "-7", mixedToward c (mixedToward c black 30) 50)
      , ("--" ++ p ++ "-8", mixedToward c black 30)
      , ("--" ++ p ++ "-9", mixedToward c black 60) ] := by
  simp only [generatePalette, mix, mixedToward, white, black, List.cons.injEq,
    Prod.mk.injEq, Color.mk.injEq, and_true, true_and]
  norm_num
  refine ⟨⟨?_, ?_, ?_⟩, ⟨?_, ?_, ?_⟩, ⟨?_, ?_, ?_⟩, ⟨?_, ?_, ?_⟩, ⟨?_, ?_, ?_⟩,
    ⟨?_, ?_, ?_⟩, ⟨?_, ?_, ?_⟩, ⟨?_, ?_, ?_⟩⟩ <;> ring

/-- Claim C3: for every base color c and name n, generate-layouts-overlay
emits exactly the four tokens --n-overlay-1, -2, -4, -7, each with c's RGB
channels and alphas 0.1, 0.2, 0.4, 0.7 respectively. -/
theorem generateLayoutsOverlay_spec (c : Color) (n : String) :
    generateLayoutsOverlay c n =
      [ ("--" ++ n ++ "-overlay-1", ⟨c.r, c.g, c.b, 1/10⟩)
      , ("--" ++ n ++ "-overlay-2", ⟨c.r, c.g, c.b, 2/10⟩)
      , ("--" ++ n ++ "-overlay-4", ⟨c.r, c.g, c.b, 4/10⟩)
      , ("--" ++ n ++ "-overlay-7", ⟨c.r, c.g, c.b, 7/10⟩) ] := rfl

/-- Channelwise dominance gives HSL-lightness dominance: if every channel
of a is at most the corresponding channel of b, then a is at most as light
as b. -/
theorem lightness_mono {a b : Color} (hr : a.r ≤ b.r) (hg : a.g ≤ b.g)
    (hb : a.b ≤ b.b) : lightness a ≤ lightness b := by
  unfold lightness
  have h1 : max a.r (max a.g a.b) ≤ max b.r (max b.g b.b) :=
    max_le_max hr (max_le_max hg hb)
  have h2 : min a.r (min a.g a.b) ≤ min b.r (min b.g b.b) :=
    min_le_min hr (min_le_min hg hb)
  linarith

/-- Claim C5: for every base color c with channels in [0, 255] and every
prefix p, the palette values at positions 1, 2, 3, 4, 5, 6, 8, 9 (token 7
excluded, as in the spec's chain) are monotonically non-increasing in
lightness: the palette progresses from near-white to near-black. -/
theorem palette_lightness_monotone (c : Color) (p : String)
    (h0r : 0 ≤ c.r) (h1r : c.r ≤ 255) (h0g : 0 ≤ c.g) (h1g : c.g ≤ 255)
    (h0b : 0 ≤ c.b) (h1b : c.b ≤ 255) :
    List.Chain' (fun a b => lightness b ≤ lightness a)
      (((generatePalette c p).map Prod.snd).eraseIdx 6) := by
  have hvals : ((generatePalette c p).map Prod.snd).eraseIdx 6 =
      [ mix white c 95, mix white c 85, mix white c 80, mix white c 70
      , mix white c 50, c, mix black c 30, mix black c 60 ] := rfl
  rw [hvals]
  simp only [List.chain'_cons, List.chain'_singleton, and_true]
  refine ⟨?_, ?_, ?_, ?_, ?_, ?_, ?_⟩ <;>
    (apply lightness_mono <;> simp only [mix, white, black] <;> linarith)

/-- Witness for C5: the channel bounds hold at the concrete base color
rgb(0, 123, 255) and the lightness chain follows for it. -/
theorem palette_lightness_monotone_witness :
    ((0:ℚ) ≤ 0 ∧ (0:ℚ) ≤ 255 ∧ (0:ℚ) ≤ 123 ∧ (123:ℚ) ≤ 255 ∧
      (0:ℚ) ≤ 255 ∧ (255:ℚ) ≤ 255) ∧
    List.Chain' (fun a b => lightness b ≤ lightness a)
      (((generatePalette ⟨0, 123, 255⟩ "primary").map Prod.snd).eraseIdx 6) :=
  ⟨by norm_num,
   palette_lightness_monotone ⟨0, 123, 255⟩ "primary" (by norm_num)
     (by norm_num) (by norm_num) (by norm_num) (by norm_num) (by norm_num)⟩

/-- Claim C6: with the default prefix "font", font-sizes emits exactly the
eight custom-property tokens --font-xl=24, --font-l=20, --font-m=18,
--font-default=16, --font-sm=14, --font-xs=12, --font-tiny=11,
--font-tiny-caps=10, in strictly descending order of value, and the
uppercase text transform appears only on the tiny-caps utility class (the
tokens are bare name/value pairs, so no token value carries it). -/
theorem fontSizes_default :
    (fontSizes "font").2 =
      [ ("--font-xl", 24), ("--font-l", 20), ("--font-m", 18)
      , ("--font-default", 16), ("--font-sm", 14), ("--font-xs", 12)
      , ("--font-tiny", 11), ("--font-tiny-caps", 10) ] ∧
    List.Chain' (fun a b => b < a) ((fontSizes "font").2.map Prod.snd) ∧
    (fontSizes "font").1.filter (fun r => r.textTransform.isSome) =
      [⟨".font-tiny-caps", 10, some "uppercase"⟩] := by
  refine ⟨rfl, ?_, rfl⟩
  simp only [fontSizes, List.map_cons, List.map_nil, List.chain'_cons,
    List.chain'_singleton, and_true]
  norm_num

/-- Claim C7: with the default prefix "font-weight", font-weights emits
exactly five utility classes and five custom-property tokens with the
pairs light=300, regular=400, semibold=600, bold=700, black=800, the token
values in strictly ascending order. -/
theorem fontWeights_default :
    (fontWeights "font-weight").1 =
      [ ⟨".font-weight-light", 300, none⟩, ⟨".font-weight-regular", 400, none⟩
      , ⟨".font-weight-semibold", 600, none⟩, ⟨".font-weight-bold", 700, none⟩
      , ⟨".font-weight-black", 800, none⟩ ] ∧
    (fontWeights "font-weight").2 =
      [ ("--font-weight-light", 300), ("--font-weight-regular", 400)
      , ("--font-weight-semibold", 600), ("--font-weight-bold", 700)
      , ("--font-weight-black", 800) ] ∧
    List.Chain' (fun a b => a < b) ((fontWeights "font-weight").2.map Prod.snd) := by
  refine ⟨rfl, rfl, ?_⟩
  simp only [fontWeights, List.map_cons, List.map_nil, List.chain'_cons,
    List.chain'_singleton, and_true]
  norm_num

/-- Claim C8: every generator is deterministic: two invocations with
identical inputs produce identical outputs.  Each generator is a pure
function of its explicit arguments, with no hidden state, randomness or
time-dependence in its body. -/
theorem generators_deterministic :
    (∀ (c c' : Color) (p p' : String), c = c' → p = p' →
      generatePalette c p = generatePalette c' p') ∧
    (∀ (c c' : Color) (n n' : String), c = c' → n = n' →
      generateLayoutsOverlay c n = generateLayoutsOverlay c' n') ∧
    (∀ p p' : String, p = p' → fontSizes p = fontSizes p') ∧
    (∀ p p' : String, p = p' → fontWeights p = fontWeights p') ∧
    (∀ m m' : ℚ, m = m' → scale m = scale m') := by
  refine ⟨?_, ?_, ?_, ?_, ?_⟩ <;> intros <;> subst_vars <;> rfl

/-- Witness for C8: two palette invocations at the identical concrete
input rgb(0, 123, 255) with prefix "primary" coincide. -/
theorem generators_deterministic_witness :
    generatePalette ⟨0, 123, 255⟩ "primary" =
      generatePalette ⟨0, 123, 255⟩ "primary" :=
  generators_deterministic.1 ⟨0, 123, 255⟩ ⟨0, 123, 255⟩ "primary" "primary"
    rfl rfl

/-- Appending a fixed string on the left is injective, so distinct suffixes
yield distinct token names under any shared prefix. -/
theorem string_append_left_injective (p : String) :
    Function.Injective (fun s => p ++ s) := by
  intro a b h
  simp only at h
  have hd : (p ++ a).data = (p ++ b).data := congrArg String.data h
  rw [String.data_append, String.data_append] at hd
  exact String.ext (List.append_cancel_left hd)

/-- Claim C9: within any single invocation of any generator, no two
produced tokens (or utility classes) share a name: every name is the shared
prefix followed by a distinct suffix. -/
theorem token_names_unique (c : Color) (p n : String) :
    ((generatePalette c p).map Prod.fst).Nodup ∧
    ((generateLayoutsOverlay c n).map Prod.fst).Nodup ∧
    ((fontSizes p).1.map ClassRule.name).Nodup ∧
    ((fontSizes p).2.map Prod.fst).Nodup ∧
    ((fontWeights p).1.map ClassRule.name).Nodup ∧
    ((fontWeights p).2.map Prod.fst).Nodup := by
  refine ⟨?_, ?_, ?_, ?_, ?_, ?_⟩
  · have h : (generatePalette c p).map Prod.fst =
        ["-1", "-2", "-3", "-4", "-5", "-6", "-7", "-8", "-9"].map
          (fun s => ("--" ++ p) ++ s) := rfl
    rw [h]
    exact List.Nodup.map (string_append_left_injective _) (by decide)
  · have h : (generateLayoutsOverlay c n).map Prod.fst =
        ["-overlay-1", "-overlay-2", "-overlay-4", "-overlay-7"].map
          (fun s => ("--" ++ n) ++ s) := rfl
    rw [h]
    exact List.Nodup.map (string_append_left_injective _) (by decide)
  · have h : (fontSizes p).1.map ClassRule.name =
        ["-xl", "-l", "-m", "-default", "-sm", "-xs", "-tiny", "-tiny-caps"].map
          (fun s => ("." ++ p) ++ s) := rfl
    rw [h]
    exact List.Nodup.map (string_append_left_injective _) (by decide)
  · have h : (fontSizes p).2.map Prod.fst =
        ["-xl", "-l", "-m", "-default", "-sm", "-xs", "-tiny", "-tiny-caps"].map
          (fun s => ("--" ++ p) ++ s) := rfl
    rw [h]
    exact List.Nodup.map (string_append_left_injective _) (by decide)
  · have h : (fontWeights p).1.map ClassRule.name =
        ["-light", "-regular", "-semibold", "-bold", "-black"].map
          (fun s => ("." ++ p) ++ s) := rfl
    rw [h]
    exact List.Nodup.map (string_append_left_injective _) (by decide)
  · have h : (fontWeights p).2.map Prod.fst =
        ["-light", "-regular", "-semibold", "-bold", "-black"].map
          (fun s => ("--" ++ p) ++ s) := rfl
    rw [h]
    exact List.Nodup.map (string_append_left_injective _) (by decide)

end SaafeTokens
